import Mathlib

/-!
# Chrome VM hosting worker: verification of the record store, lifecycle manager,
# strategy selector, router and action proxy

Shallow embedding of the Cloudflare-worker variants found in the repository:
* `IndexTs`  — `src/src/index.ts`
* `Part001`  — the D1-backed variant (`src/unnamed/part_001`)
* `Part000`  — the variant with reordered routes (`src/unnamed/part_000`)

The in-memory store `activeVMs : Map<string, VM>` is modelled as a function
`String → Option VM`.  External effects (the Railway provisioning endpoint,
the Docker service endpoint, the D1 database, upstream agent calls and clock
reads) are passed in as explicit oracle arguments; `setTimeout` delays are
ignored.  JavaScript falsiness of optional strings (`undefined` or `""`) is
modelled by `falsyOpt` / `orElseStr`.
-/

/-- Lifecycle status of a VM record.  `index.ts` declares
`'initializing' | 'ready' | 'error' | 'stopped'`; `part_001` additionally
declares `'running'` (never constructed by any code path). -/
inductive VMStatus
  | initializing
  | ready
  | running
  | stopped
  | error
  deriving DecidableEq, Repr

/-- The VM record (interface `VM` of `index.ts` / `part_001`).  Optional
fields are `Option String`; `metadata` and `network` are never read by the
operations under verification and are omitted. -/
structure VM where
  id : String
  name : String
  status : VMStatus
  containerId : Option String := none
  novncUrl : Option String := none
  agentUrl : Option String := none
  originAgentUrl : Option String := none
  originNoVncUrl : Option String := none
  publicIp : Option String := none
  chromeVersion : Option String := none
  nodeVersion : Option String := none
  createdAt : String
  lastActivity : Option String := none
  instanceType : Option String := none
  memory : Option String := none
  cpu : Option String := none
  storage : Option String := none
  serverId : Option String := none
  serverName : Option String := none
  region : Option String := none
  createdVia : Option String := none
  error : Option String := none
  deriving DecidableEq, Repr

/-- The in-memory store `activeVMs : Map<string, VM>`. -/
def Store : Type := String → Option VM

/-- Empty store. -/
def Store.empty : Store := fun _ => none

/-- `activeVMs.set(k, v)`. -/
def Store.set (s : Store) (k : String) (v : VM) : Store :=
  fun k' => if k' = k then some v else s k'

/-- `activeVMs.delete(k)`. -/
def Store.del (s : Store) (k : String) : Store :=
  fun k' => if k' = k then none else s k'

/-- The secondary alias key `working-vm-${id}`. -/
def aliasKey (id : String) : String := "working-vm-" ++ id

/-- `storeVM`: `activeVMs.set(vm.id, vm); activeVMs.set(`working-vm-${vm.id}`, vm)`.
(The D1 write of `part_001` is external persistence and not part of the
in-memory map state.) -/
def storeVM (s : Store) (vm : VM) : Store :=
  (s.set vm.id vm).set (aliasKey vm.id) vm

/-- `activeVMs.get(id) || activeVMs.get(`working-vm-${id}`)` — the direct
two-key lookup used by the delete/start/restart/proxy handlers. -/
def lookupVM (s : Store) (id : String) : Option VM :=
  match s id with
  | some vm => some vm
  | none => s (aliasKey id)

/-- JS falsiness for an optional string binding: absent or `""`. -/
def falsyOpt (o : Option String) : Bool :=
  match o with
  | none => true
  | some s => s = ""

/-- `o || d` for a possibly-absent string `o` and default `d`. -/
def orElseStr (o : Option String) (d : String) : String :=
  match o with
  | some s => if s = "" then d else s
  | none => d

/-- `listHasLead pat l` holds when `pat` occurs at the head of `l`. -/
def listHasLead (pat l : List Char) : Bool :=
  match pat, l with
  | [], _ => true
  | _ :: _, [] => false
  | p :: ps, c :: cs => p == c && listHasLead ps cs

/-- JS `String.prototype.endsWith` / `url.pathname.endsWith`. -/
def strEndsWith (s pat : String) : Bool := listHasLead pat.data.reverse s.data.reverse

/-- `.replace(/\/$/, '')`: strip one trailing slash. -/
def stripTrailingSlash (s : String) : String :=
  if strEndsWith s "/" then String.mk s.data.dropLast else s

/-- The worker's public base URL. -/
def baseHost : String := "https://chrome-vm-workers.mgmt-5e1.workers.dev"

/-- `https://chrome-vm-workers.mgmt-5e1.workers.dev/vms/${id}/novnc`. -/
def vmNovncUrl (id : String) : String := baseHost ++ "/vms/" ++ id ++ "/novnc"

/-- `https://chrome-vm-workers.mgmt-5e1.workers.dev/vms/${id}/agent`. -/
def vmAgentUrl (id : String) : String := baseHost ++ "/vms/" ++ id ++ "/agent"

/-- `getServerName` (identical in all variants). -/
def getServerName (serverId : Option String) : String :=
  match serverId with
  | some "default-cloud-server" => "Cloudflare Workers"
  | some "default-cloudflare-server" => "Cloudflare Workers"
  | some "default-google-cloud-server" => "Google Cloud Platform"
  | some "default-railway-server" => "Railway"
  | _ => "Unknown Server"

/-- The mock VM synthesized by `getVMFromStorage` when an id is missing
("This ensures the NoVNC endpoint always works").  `now` stands for
`new Date().toISOString()`. -/
def mockVM (vmId now : String) : VM :=
  { id := vmId
    name := "Mock VM " ++ vmId
    status := .ready
    createdAt := now
    instanceType := some "t3.medium"
    serverId := some "default-cloud-server"
    serverName := some "Cloudflare Workers"
    region := some "global"
    createdVia := some "cloudflare-workers"
    containerId := some ("mock-container-" ++ vmId)
    novncUrl := some (vmNovncUrl vmId)
    agentUrl := some (vmAgentUrl vmId)
    publicIp := some "cloudflare-edge-ip"
    chromeVersion := some "120.0.0.0"
    nodeVersion := some "18.19.0"
    lastActivity := some now
    memory := some "512MB"
    cpu := some "0.5 vCPU"
    storage := some "1GB" }

/-- Result descriptor returned by a provisioning backend.  Fields that every
construction site supplies are plain strings; fields that may be absent in the
external endpoint's reply are optional. -/
structure BackendResult where
  containerId : Option String := none
  novncUrl : String
  agentUrl : String
  originAgentUrl : Option String := none
  originNoVncUrl : Option String := none
  publicIp : Option String := none
  chromeVersion : String
  nodeVersion : String
  memory : String
  cpu : String
  storage : String
  deriving DecidableEq, Repr

/-- Outcome of an external HTTP call made through `fetch`: a parsed 2xx body,
a non-2xx response (`!resp.ok`), or a transport-level rejection. -/
inductive FetchOutcome (α : Type)
  | ok (data : α)
  | httpError (status : Nat) (text : String)
  | networkError (msg : String)
  deriving DecidableEq, Repr

/-- Body shape of the JSON reply of the Railway VM server (`/api/vms`). -/
structure RailwayData where
  id : Option String := none
  novnc_url : Option String := none
  agent_url : Option String := none
  public_ip : Option String := none
  chrome_version : Option String := none
  node_version : Option String := none
  deriving DecidableEq, Repr

/-- Body shape of the JSON reply of the external Docker service
(`POST ${DOCKER_SERVICE_URL}/containers`). -/
structure ContainerData where
  id : Option String := none
  agentUrl : Option String := none
  novncUrl : Option String := none
  publicIp : Option String := none
  deriving DecidableEq, Repr

/-- Outcome of the D1 lookup inside `part_001`'s `getVMFromStorage`:
the binding may be missing entirely (`return null`), the query may find a
row, find nothing, or throw (caught, falling through to the mock). -/
inductive DbOutcome
  | unavailable
  | row (vm : VM)
  | missing
  | queryError
  deriving DecidableEq, Repr

/-- Response bodies, abstracted just enough to distinguish the handlers'
outcomes. -/
inductive RespBody
  | createStarted (vmId : String) (status : VMStatus)
  | validationError (msg : String)
  | vmRecord (vm : VM)
  | notFound
  | deleted (vmId : String)
  | success (msg : String)
  | noUpstream
  | unsupportedAction
  | proxiedBody (text : String) (contentType : String)
  deriving DecidableEq, Repr

/-- An HTTP response: status code plus abstracted body. -/
structure Resp where
  status : Nat
  body : RespBody
  deriving DecidableEq, Repr

/-- A single outgoing upstream HTTP call recorded by a handler. -/
structure UpstreamCall where
  url : String
  method : String
  bodyText : Option String := none
  deriving DecidableEq, Repr

/-- The relevant parts of the incoming request for the agent proxy. -/
structure ProxyRequest where
  method : String
  bodyText : String
  deriving DecidableEq, Repr

/-- The upstream agent's reply, as observed by the proxy. -/
structure UpstreamResponse where
  status : Nat
  contentType : Option String := none
  bodyText : String := ""
  deriving DecidableEq, Repr

/-- Parsed create-request body `{name, server_id?, instanceType?}`; a missing
`name` is modelled as `""` (both are falsy in `if (!name)`). -/
structure CreateRequest where
  name : String
  server_id : Option String := none
  instanceType : Option String := none
  deriving DecidableEq, Repr

/- ### Route matching helpers (the flat dispatcher's path tests) -/

/-- `listContains l pat`: `pat` occurs contiguously somewhere in `l`. -/
def listContains (l pat : List Char) : Bool :=
  match l with
  | [] => listHasLead pat []
  | _ :: cs => listHasLead pat l || listContains cs pat

/-- JS `String.prototype.includes`. -/
def containsStr (s pat : String) : Bool := listContains s.data pat.data

/-- JS `String.prototype.startsWith` / `url.pathname.startsWith`. -/
def strStartsWith (s pat : String) : Bool := listHasLead pat.data s.data

/-- Split a character list at `'/'` (JS `path.split('/')`). -/
def splitSlash (l : List Char) : List (List Char) :=
  match l with
  | [] => [[]]
  | c :: cs =>
    let r := splitSlash cs
    if c = '/' then [] :: r
    else
      match r with
      | h :: t => (c :: h) :: t
      | [] => [[c]]

/-- `url.pathname.split('/')` as a list of segments. -/
def pathSegs (path : String) : List String :=
  (splitSlash path.data).map String.mk

/-- `url.pathname.split('/')[2]` (out-of-range reads give `""`). -/
def seg2 (path : String) : String := (pathSegs path).getD 2 ""

/-- One character of the id class `[A-Za-z0-9_-]`. -/
def isIdChar (c : Char) : Bool := c.isAlphanum || c == '_' || c == '-'

/-- A nonempty run of id characters. -/
def validId (id : String) : Bool := !id.isEmpty && id.data.all isIdChar

/-- Test for `^\/vms\/[A-Za-z0-9_-]+\/<action>$` where `action` is a single
path segment. -/
def matchVmAction (path action : String) : Bool :=
  match pathSegs path with
  | ["", "vms", id, a] => validId id && a == action
  | _ => false

/-- Test for
`^\/vms\/[A-Za-z0-9_-]+\/agent\/(browser\/navigate|restart|status|execute|screenshot)$`,
returning the id and the joined action `parts.slice(4).join('/')`. -/
def matchAgentProxy (path : String) : Option (String × String) :=
  match pathSegs path with
  | ["", "vms", id, "agent", "browser", "navigate"] =>
    if validId id then some (id, "browser/navigate") else none
  | ["", "vms", id, "agent", a] =>
    if validId id &&
        (a == "restart" || a == "status" || a == "execute" || a == "screenshot") then
      some (id, a)
    else none
  | _ => none

/-- Dispatch target of the worker's `fetch` entry point. -/
inductive Route
  | preflight
  | health
  | listVMs
  | createVM
  | getVM (id : String)
  | deleteVM (id : String)
  | startVM (id : String)
  | restartVM (id : String)
  | novnc (id : String)
  | agent (id : String)
  | agentProxy (id : String) (action : String)
  | services
  | notFound
  deriving DecidableEq, Repr

namespace IndexTs

/-- `selectDeploymentStrategy` of `src/src/index.ts` (no server preference
argument; `includes` is substring containment). -/
def selectDeploymentStrategy (instanceType : String) : String :=
  if containsStr instanceType "e2-" then "google_cloud"
  else if containsStr instanceType "t3." then "railway"
  else "cloudflare"

/-- `createCloudflareVM` of `index.ts`: synthesizes a deterministic
descriptor (the 2s simulated delay is dropped). -/
def createCloudflareVM (vm : VM) : BackendResult :=
  { containerId := some ("cf-container-" ++ vm.id)
    novncUrl := vmNovncUrl vm.id
    agentUrl := vmAgentUrl vm.id
    publicIp := some "cloudflare-edge-ip"
    chromeVersion := "120.0.0.0"
    nodeVersion := "18.19.0"
    memory := "512MB"
    cpu := "0.5 vCPU"
    storage := "1GB" }

/-- `createGoogleCloudVM` of `index.ts` (simulated, never fails). -/
def createGoogleCloudVM (vm : VM) : BackendResult :=
  { containerId := some ("gcp-vm-" ++ vm.id)
    novncUrl := vmNovncUrl vm.id
    agentUrl := vmAgentUrl vm.id
    publicIp := some "google-cloud-ip"
    chromeVersion := "120.0.0.0"
    nodeVersion := "18.19.0"
    memory := "2GB"
    cpu := "1 vCPU"
    storage := "10GB" }

/-- `createRailwayVM` of `index.ts`.  `base` is `env.RAILWAY_VM_SERVER_URL`
and `fetchResult` the outcome of `POST ${base}/api/vms`.  A non-2xx reply
throws `Railway VM server create failed: ${status} ${text}`; a transport
failure propagates; both are modelled as `Except.error`. -/
def createRailwayVM (vm : VM) (base : Option String)
    (fetchResult : FetchOutcome RailwayData) : Except String BackendResult :=
  if falsyOpt base then
    .ok { containerId := some ("railway-vm-" ++ vm.id)
          novncUrl := vmNovncUrl vm.id
          agentUrl := vmAgentUrl vm.id
          publicIp := some "railway-ip"
          chromeVersion := "120.0.0.0"
          nodeVersion := "18.19.0"
          memory := "1GB"
          cpu := "0.5 vCPU"
          storage := "5GB" }
  else
    match fetchResult with
    | .networkError msg => .error msg
    | .httpError st text =>
      .error ("Railway VM server create failed: " ++ toString st ++ " " ++ text)
    | .ok data =>
      .ok { containerId := some (orElseStr data.id ("railway-vm-" ++ vm.id))
            novncUrl := vmNovncUrl vm.id
            agentUrl := vmAgentUrl vm.id
            originNoVncUrl := data.novnc_url
            originAgentUrl := data.agent_url
            publicIp := some (orElseStr data.public_ip "railway-ip")
            chromeVersion := orElseStr data.chrome_version "120.0.0.0"
            nodeVersion := orElseStr data.node_version "18.19.0"
            memory := "1GB"
            cpu := "0.5 vCPU"
            storage := "5GB" }

/-- External collaborators of `index.ts`'s create path. -/
structure CreateEnv where
  railwayBase : Option String := none
  deriving DecidableEq, Repr

/-- Oracle for the single external call `createRealVM` may make. -/
structure CreateOracle where
  railwayFetch : FetchOutcome RailwayData := .networkError "unreachable"
  deriving DecidableEq, Repr

/-- The strategy switch at the top of `createRealVM`: invoke the backend
selected by `selectDeploymentStrategy`, propagating any exception. -/
def chooseBackend (vm : VM) (env : CreateEnv) (oracle : CreateOracle) :
    Except String BackendResult :=
  let strategy := selectDeploymentStrategy (vm.instanceType.getD "t3.medium")
  if strategy = "cloudflare" then .ok (createCloudflareVM vm)
  else if strategy = "google_cloud" then .ok (createGoogleCloudVM vm)
  else if strategy = "railway" then
    createRailwayVM vm env.railwayBase oracle.railwayFetch
  else .ok (createCloudflareVM vm)

/-- `createRealVM` of `index.ts`: select a strategy, invoke the backend,
merge the descriptor and set `ready`; on any exception set `error` with the
caught message.  Both arms persist through `storeVM`. -/
def createRealVM (vm : VM) (env : CreateEnv) (oracle : CreateOracle)
    (now : String) (s : Store) : VM × Store :=
  match chooseBackend vm env oracle with
  | .ok r =>
    let vm' : VM :=
      { vm with
        status := .ready
        containerId := r.containerId
        novncUrl := some r.novncUrl
        agentUrl := some r.agentUrl
        originAgentUrl := some (orElseStr r.originAgentUrl r.agentUrl)
        originNoVncUrl := some (orElseStr r.originNoVncUrl r.novncUrl)
        publicIp := r.publicIp
        chromeVersion := some r.chromeVersion
        nodeVersion := some r.nodeVersion
        lastActivity := some now
        memory := some r.memory
        cpu := some r.cpu
        storage := some r.storage }
    (vm', storeVM s vm')
  | .error e =>
    let vm' : VM := { vm with status := .error, error := some e }
    (vm', storeVM s vm')

/-- The fresh `initializing` record written by `handleCreateVM` before
provisioning starts. -/
def initialVM (body : CreateRequest) (genId now : String) : VM :=
  { id := genId
    name := body.name
    status := .initializing
    createdAt := now
    instanceType := some (body.instanceType.getD "t3.medium")
    serverId := body.server_id
    serverName := some (getServerName body.server_id)
    region := some "global"
    createdVia := some "cloudflare-workers" }

/-- `handleCreateVM` of `index.ts`.  `genId` stands for `generateVMId()` and
`now` for `new Date().toISOString()`.  A falsy `name` yields 400; otherwise
the worker writes an `initializing` record, synchronously runs
`createRealVM`, stores the result and answers 201. -/
def handleCreateVM (body : CreateRequest) (genId now : String)
    (env : CreateEnv) (oracle : CreateOracle) (s : Store) : Resp × Store :=
  if body.name = "" then
    ({ status := 400, body := .validationError "VM name is required" }, s)
  else
    let res := createRealVM (initialVM body genId now) env oracle now s
    ({ status := 201, body := .createStarted res.1.id res.1.status },
     storeVM res.2 res.1)

/-- `getVMFromStorage` of `index.ts`: primary key, then alias key; on a miss
it synthesizes `mockVM`, stores it under both keys and returns it — it never
returns null. -/
def getVMFromStorage (s : Store) (vmId now : String) : Option VM × Store :=
  match s vmId with
  | some vm => (some vm, s)
  | none =>
    match s (aliasKey vmId) with
    | some vm => (some vm, s)
    | none =>
      let m := mockVM vmId now
      (some m, storeVM s m)

/-- `handleGetVM` of `index.ts` (the 404 arm mirrors the source's dead
`if (!vm)` check). -/
def handleGetVM (s : Store) (vmId now : String) : Resp × Store :=
  match getVMFromStorage s vmId now with
  | (none, s') => ({ status := 404, body := .notFound }, s')
  | (some vm, s') => ({ status := 200, body := .vmRecord vm }, s')

/-- `handleDeleteVM` of `index.ts`: direct two-key lookup; unknown id gives
404, otherwise both entries are removed. -/
def handleDeleteVM (s : Store) (vmId : String) : Resp × Store :=
  match lookupVM s vmId with
  | none => ({ status := 404, body := .notFound }, s)
  | some _ =>
    ({ status := 200, body := .deleted vmId },
     (s.del vmId).del (aliasKey vmId))

/-- `handleStartVM` of `index.ts`.  `upstreamResult` is the outcome of the
best-effort `POST ${originAgentUrl}/browser/restart` whose failure is
swallowed by `.catch(() => {})`; the handler never inspects it.  Returns the
response, the new store, and the list of upstream calls attempted. -/
def handleStartVM (s : Store) (vmId now : String)
    (_upstreamResult : Except String Unit) : Resp × Store × List UpstreamCall :=
  match lookupVM s vmId with
  | none => ({ status := 404, body := .notFound }, s, [])
  | some vm =>
    let calls :=
      if falsyOpt vm.originAgentUrl then ([] : List UpstreamCall)
      else
        [{ url := stripTrailingSlash (vm.originAgentUrl.getD "") ++ "/browser/restart"
           method := "POST" }]
    let vm' : VM := { vm with status := .ready, lastActivity := some now }
    ({ status := 200, body := .success ("VM " ++ vmId ++ " started.") },
     storeVM s vm', calls)

/-- `handleRestartVM` of `index.ts` (same shape as start, but the new status
is `initializing`). -/
def handleRestartVM (s : Store) (vmId now : String)
    (_upstreamResult : Except String Unit) : Resp × Store × List UpstreamCall :=
  match lookupVM s vmId with
  | none => ({ status := 404, body := .notFound }, s, [])
  | some vm =>
    let calls :=
      if falsyOpt vm.originAgentUrl then ([] : List UpstreamCall)
      else
        [{ url := stripTrailingSlash (vm.originAgentUrl.getD "") ++ "/browser/restart"
           method := "POST" }]
    let vm' : VM := { vm with status := .initializing, lastActivity := some now }
    ({ status := 200, body := .success ("VM " ++ vmId ++ " restart initiated.") },
     storeVM s vm', calls)

/-- The action-to-suffix switch of `handleAgentProxy` (default falls to the
400 "Unsupported agent action" arm). -/
def agentActionPath (action : String) : Option String :=
  if action = "browser/navigate" then some "/browser/navigate"
  else if action = "restart" then some "/browser/restart"
  else if action = "status" then some "/health"
  else if action = "execute" then some "/run"
  else if action = "screenshot" then some "/run"
  else none

/-- `handleAgentProxy` of `index.ts`: resolve the record (404), require a
truthy `originAgentUrl` (400 "No upstream agent URL"), map the action (400
for unknown actions, before any network call), then issue exactly one
upstream call against the stripped base plus the suffix, forwarding the body
for non-GET/HEAD and echoing the upstream status with a JSON-defaulted
content type. -/
def handleAgentProxy (s : Store) (vmId action : String) (req : ProxyRequest)
    (upstream : UpstreamResponse) : Resp × List UpstreamCall :=
  match lookupVM s vmId with
  | none => ({ status := 404, body := .notFound }, [])
  | some vm =>
    if falsyOpt vm.originAgentUrl then
      ({ status := 400, body := .noUpstream }, [])
    else
      let base := stripTrailingSlash (vm.originAgentUrl.getD "")
      match agentActionPath action with
      | none => ({ status := 400, body := .unsupportedAction }, [])
      | some p =>
        let fwdBody : Option String :=
          if req.method = "GET" ∨ req.method = "HEAD" then none
          else some req.bodyText
        ({ status := upstream.status
           body := .proxiedBody upstream.bodyText
                     (orElseStr upstream.contentType "application/json") },
         [{ url := base ++ p, method := req.method, bodyText := fwdBody }])

/-- The route dispatcher of `index.ts`'s `fetch`, in source order: health,
collection routes, then the **generic** `GET`/`DELETE` on `/vms/...`, and
only afterwards the suffix routes (`/start`, `/restart`, `/novnc`, `/agent`,
`/agent/{action}`) and `/services`. -/
def route (method path : String) : Route :=
  if method = "OPTIONS" then .preflight
  else if path = "/health" then .health
  else if path = "/vms" ∧ method = "GET" then .listVMs
  else if path = "/vms" ∧ method = "POST" then .createVM
  else if strStartsWith path "/vms/" ∧ method = "GET" then .getVM (seg2 path)
  else if strStartsWith path "/vms/" ∧ method = "DELETE" then .deleteVM (seg2 path)
  else if matchVmAction path "start" ∧ method = "POST" then .startVM (seg2 path)
  else if matchVmAction path "restart" ∧ method = "POST" then .restartVM (seg2 path)
  else if strStartsWith path "/vms/" ∧ strEndsWith path "/novnc" then .novnc (seg2 path)
  else if strStartsWith path "/vms/" ∧ strEndsWith path "/agent" then .agent (seg2 path)
  else
    match matchAgentProxy path with
    | some (id, a) => .agentProxy id a
    | none => if path = "/services" ∧ method = "GET" then .services else .notFound

end IndexTs

namespace Part000

/-- The route dispatcher of `src/unnamed/part_000`'s `fetch`: identical
handler set, but the `/novnc` and `/agent` suffix routes and the
start/restart routes are checked **before** the generic `GET`/`DELETE`
(`// NoVNC endpoint (check BEFORE generic GET /vms/:id)`); the
`/agent/{action}` proxy route still comes after the generic ones. -/
def route (method path : String) : Route :=
  if method = "OPTIONS" then .preflight
  else if path = "/health" then .health
  else if path = "/vms" ∧ method = "GET" then .listVMs
  else if path = "/vms" ∧ method = "POST" then .createVM
  else if strStartsWith path "/vms/" ∧ strEndsWith path "/novnc" then .novnc (seg2 path)
  else if strStartsWith path "/vms/" ∧ strEndsWith path "/agent" then .agent (seg2 path)
  else if matchVmAction path "start" ∧ method = "POST" then .startVM (seg2 path)
  else if matchVmAction path "restart" ∧ method = "POST" then .restartVM (seg2 path)
  else if strStartsWith path "/vms/" ∧ method = "GET" then .getVM (seg2 path)
  else if strStartsWith path "/vms/" ∧ method = "DELETE" then .deleteVM (seg2 path)
  else
    match matchAgentProxy path with
    | some (id, a) => .agentProxy id a
    | none => if path = "/services" ∧ method = "GET" then .services else .notFound

end Part000

namespace Part001

/-- `selectDeploymentStrategy` of `src/unnamed/part_001`: e2-containment
forces `google_cloud`, t3-containment forces `cloudflare` (the edge/mock
backend), then the explicit server preference, then the edge default. -/
def selectDeploymentStrategy (instanceType : String) (serverId : Option String) : String :=
  if containsStr instanceType "e2-" then "google_cloud"
  else if containsStr instanceType "t3." then "cloudflare"
  else if serverId = some "default-google-cloud-server" then "google_cloud"
  else "cloudflare"

/-- `createCloudflareVM` of `part_001` (the edge backend's synthesized
descriptor; sizes depend on `vm.instanceType?.includes('t3.medium')`). -/
def createCloudflareVM (vm : VM) : BackendResult :=
  { containerId := some ("cf-container-" ++ vm.id)
    novncUrl := vmNovncUrl vm.id
    agentUrl := vmAgentUrl vm.id
    publicIp := some ("cf-" ++ vm.id ++ ".workers.dev")
    chromeVersion := "120.0.0.0"
    nodeVersion := "18.19.0"
    memory := if (vm.instanceType.map (containsStr · "t3.medium")).getD false
              then "512MB" else "1GB"
    cpu := if (vm.instanceType.map (containsStr · "t3.medium")).getD false
           then "0.5 vCPU" else "1 vCPU"
    storage := "1GB" }

/-- Google Cloud credentials and Docker-service configuration visible to
`part_001`'s `createGoogleCloudVM`. -/
structure GCPEnv where
  projectId : Option String := none
  accessToken : Option String := none
  dockerServiceUrl : Option String := none
  deriving DecidableEq, Repr

/-- Memory size chosen by `vm.instanceType?.includes('e2-medium')`. -/
def gcpMemory (vm : VM) : String :=
  if (vm.instanceType.map (containsStr · "e2-medium")).getD false then "2GB" else "4GB"

/-- CPU size chosen by `vm.instanceType?.includes('e2-medium')`. -/
def gcpCpu (vm : VM) : String :=
  if (vm.instanceType.map (containsStr · "e2-medium")).getD false then "1 vCPU" else "2 vCPU"

/-- `createGoogleCloudVM` of `part_001` (the cloud-managed backend).
Missing credentials delegate to the edge backend; with credentials it tries
the external Docker service (when configured) and on a 2xx returns the
endpoint's addresses; a non-2xx or transport failure falls through to the
synthesized simulated GCP descriptor.  The function's outer `try/catch`
falls back to the edge backend on any other exception; in this model no
other step can throw, so the function is total and never produces an
error. -/
def createGoogleCloudVM (vm : VM) (env : GCPEnv)
    (dockerFetch : FetchOutcome ContainerData) : BackendResult :=
  if falsyOpt env.projectId || falsyOpt env.accessToken then
    createCloudflareVM vm
  else
    let viaDocker : Option BackendResult :=
      if falsyOpt env.dockerServiceUrl then none
      else
        match dockerFetch with
        | .ok data =>
          some { containerId := data.id
                 novncUrl := vmNovncUrl vm.id
                 agentUrl := vmAgentUrl vm.id
                 originAgentUrl := data.agentUrl
                 originNoVncUrl := data.novncUrl
                 publicIp := data.publicIp
                 chromeVersion := "120.0.0.0"
                 nodeVersion := "18.19.0"
                 memory := gcpMemory vm
                 cpu := gcpCpu vm
                 storage := "20GB" }
        | .httpError _ _ => none
        | .networkError _ => none
    match viaDocker with
    | some r => r
    | none =>
      { containerId := some ("gcp-vm-" ++ vm.id)
        novncUrl := vmNovncUrl vm.id
        agentUrl := vmAgentUrl vm.id
        publicIp := some ("chrome-vm-" ++ vm.id ++ ".us-central1-a.c."
                          ++ env.projectId.getD "" ++ ".internal")
        chromeVersion := "120.0.0.0"
        nodeVersion := "18.19.0"
        memory := gcpMemory vm
        cpu := gcpCpu vm
        storage := "20GB" }

/-- `createRealVM` of `part_001`: strategies are only `cloudflare` and
`google_cloud` (Railway removed), both total, so the merge always runs and
the record always ends `ready`; the `catch` arm that would set `error` is
unreachable.  `createdVia` is stamped per strategy before the merge. -/
def createRealVM (vm : VM) (env : GCPEnv)
    (dockerFetch : FetchOutcome ContainerData) (now : String) (s : Store) :
    VM × Store :=
  let strategy := selectDeploymentStrategy (vm.instanceType.getD "t3.medium") vm.serverId
  let result : BackendResult :=
    if strategy = "cloudflare" then createCloudflareVM vm
    else if strategy = "google_cloud" then createGoogleCloudVM vm env dockerFetch
    else createCloudflareVM vm
  let via : String :=
    if strategy = "cloudflare" then "cloudflare-workers"
    else if strategy = "google_cloud" then "google-cloud-real"
    else "cloudflare-workers"
  let vm' : VM :=
    { vm with
      status := .ready
      createdVia := some via
      containerId := result.containerId
      novncUrl := some result.novncUrl
      agentUrl := some result.agentUrl
      originAgentUrl := some (orElseStr result.originAgentUrl result.agentUrl)
      originNoVncUrl := some (orElseStr result.originNoVncUrl result.novncUrl)
      publicIp := result.publicIp
      chromeVersion := some result.chromeVersion
      nodeVersion := some result.nodeVersion
      lastActivity := some now
      memory := some result.memory
      cpu := some result.cpu
      storage := some result.storage }
  (vm', storeVM s vm')

/-- `getVMFromStorage` of `part_001`: primary key, alias key, then the D1
table.  A row found in D1 is cached with `activeVMs.set(vmId, vm)` — the
primary key **only**; an unavailable binding returns null; a missing row or
a query error falls through to the mock (stored under both keys). -/
def getVMFromStorage (s : Store) (vmId : String) (db : DbOutcome) (now : String) :
    Option VM × Store :=
  match s vmId with
  | some vm => (some vm, s)
  | none =>
    match s (aliasKey vmId) with
    | some vm => (some vm, s)
    | none =>
      match db with
      | .unavailable => (none, s)
      | .row vm => (some vm, s.set vmId vm)
      | .missing =>
        let m := mockVM vmId now
        (some m, storeVM s m)
      | .queryError =>
        let m := mockVM vmId now
        (some m, storeVM s m)

end Part001

/-- Modelled from the spec's words for comparison (claim C3): the selector
read with **leading-substring** ("reserved prefix pattern") matching instead
of the source's `includes` containment, same rule order and defaults. -/
def selectStrategyWordSpec (instanceType : String) (serverId : Option String) : String :=
  if strStartsWith instanceType "e2-" then "google_cloud"
  else if strStartsWith instanceType "t3." then "cloudflare"
  else if serverId = some "default-google-cloud-server" then "google_cloud"
  else "cloudflare"

/- ### Store lemmas -/

theorem Store.get_set_self (s : Store) (k : String) (v : VM) :
    (s.set k v) k = some v := by
  simp [Store.set]

theorem Store.get_set_ne (s : Store) {k k' : String} (v : VM) (h : k' ≠ k) :
    (s.set k v) k' = s k' := by
  simp [Store.set, h]

theorem storeVM_self (s : Store) (vm : VM) : (storeVM s vm) vm.id = some vm := by
  unfold storeVM Store.set
  split_ifs with h1 h2
  · rfl
  · rfl
  · exact absurd rfl h2

theorem storeVM_at_alias (s : Store) (vm : VM) :
    (storeVM s vm) (aliasKey vm.id) = some vm := by
  unfold storeVM Store.set
  simp

theorem storeVM_other (s : Store) (vm : VM) {k : String} (h1 : k ≠ vm.id)
    (h2 : k ≠ aliasKey vm.id) : (storeVM s vm) k = s k := by
  unfold storeVM Store.set
  simp [h1, h2]

theorem del2_self (s : Store) (k : String) :
    ((s.del k).del (aliasKey k)) k = none := by
  unfold Store.del
  split_ifs with h1 h2
  · rfl
  · rfl
  · exact absurd rfl h2

theorem del2_at_alias (s : Store) (k : String) :
    ((s.del k).del (aliasKey k)) (aliasKey k) = none := by
  unfold Store.del
  simp

theorem del2_other (s : Store) (k : String) {j : String} (h1 : j ≠ k)
    (h2 : j ≠ aliasKey k) : ((s.del k).del (aliasKey k)) j = s j := by
  unfold Store.del
  simp [h1, h2]

/- ### Alias-key lemmas -/

theorem aliasKey_inj {a b : String} (h : aliasKey a = aliasKey b) : a = b := by
  have h2 := congrArg String.data h
  simp only [aliasKey, String.data_append] at h2
  have h3 := List.append_cancel_left h2
  cases a
  cases b
  exact congrArg String.mk h3

/-- An id that is not itself an alias key of any id. -/
def goodId (id : String) : Prop := ∀ k, id ≠ aliasKey k

theorem goodId_of_short {id : String} (h : id.length < 11) : goodId id := by
  intro k hk
  have h2 := congrArg String.length hk
  rw [aliasKey, String.length_append] at h2
  have h3 : ("working-vm-" : String).length = 11 := rfl
  omega

/- ### String helpers -/

theorem orElseStr_ne {o : Option String} {d : String} (hd : d ≠ "") :
    orElseStr o d ≠ "" := by
  cases o with
  | none => simpa [orElseStr] using hd
  | some s =>
    simp only [orElseStr]
    split <;> simp_all

theorem vmAgentUrl_ne (id : String) : vmAgentUrl id ≠ "" := by
  intro h
  have h2 := congrArg String.length h
  rw [vmAgentUrl, String.length_append, String.length_append,
    String.length_append] at h2
  have h3 : 0 < baseHost.length := by decide
  have h4 : ("" : String).length = 0 := rfl
  omega

/- ### Lemmas about index.ts's create path -/

theorem createRailwayVM_agentUrl {vm : VM} {base : Option String}
    {fr : FetchOutcome RailwayData} {r : BackendResult}
    (h : IndexTs.createRailwayVM vm base fr = .ok r) :
    r.agentUrl = vmAgentUrl vm.id := by
  unfold IndexTs.createRailwayVM at h
  split_ifs at h
  · injection h with h
    subst h
    rfl
  · cases fr with
    | ok data =>
      injection h with h
      subst h
      rfl
    | httpError st text => injection h
    | networkError msg => injection h

theorem chooseBackend_agentUrl {vm : VM} {env : IndexTs.CreateEnv}
    {oracle : IndexTs.CreateOracle} {r : BackendResult}
    (h : IndexTs.chooseBackend vm env oracle = .ok r) :
    r.agentUrl = vmAgentUrl vm.id := by
  simp only [IndexTs.chooseBackend] at h
  split_ifs at h
  · injection h with h
    subst h
    rfl
  · injection h with h
    subst h
    rfl
  · exact createRailwayVM_agentUrl h
  · injection h with h
    subst h
    rfl

theorem createRealVM_id (vm : VM) (env : IndexTs.CreateEnv)
    (oracle : IndexTs.CreateOracle) (now : String) (s : Store) :
    ((IndexTs.createRealVM vm env oracle now s).1).id = vm.id := by
  unfold IndexTs.createRealVM
  cases IndexTs.chooseBackend vm env oracle <;> rfl

theorem createRealVM_status (vm : VM) (env : IndexTs.CreateEnv)
    (oracle : IndexTs.CreateOracle) (now : String) (s : Store) :
    ((IndexTs.createRealVM vm env oracle now s).1).status = VMStatus.ready ∨
    ((IndexTs.createRealVM vm env oracle now s).1).status = VMStatus.error := by
  unfold IndexTs.createRealVM
  cases IndexTs.chooseBackend vm env oracle
  · exact Or.inr rfl
  · exact Or.inl rfl

theorem createRealVM_snd (vm : VM) (env : IndexTs.CreateEnv)
    (oracle : IndexTs.CreateOracle) (now : String) (s : Store) :
    (IndexTs.createRealVM vm env oracle now s).2
      = storeVM s (IndexTs.createRealVM vm env oracle now s).1 := by
  unfold IndexTs.createRealVM
  cases IndexTs.chooseBackend vm env oracle <;> rfl

theorem createRealVM_ok_origin {vm : VM} {env : IndexTs.CreateEnv}
    {oracle : IndexTs.CreateOracle} {r : BackendResult}
    (h : IndexTs.chooseBackend vm env oracle = .ok r) (now : String) (s : Store) :
    ((IndexTs.createRealVM vm env oracle now s).1).originAgentUrl
      = some (orElseStr r.originAgentUrl r.agentUrl) := by
  unfold IndexTs.createRealVM
  rw [h]

theorem createRealVM_error_status {vm : VM} {env : IndexTs.CreateEnv}
    {oracle : IndexTs.CreateOracle} {e : String}
    (h : IndexTs.chooseBackend vm env oracle = .error e) (now : String) (s : Store) :
    ((IndexTs.createRealVM vm env oracle now s).1).status = VMStatus.error := by
  unfold IndexTs.createRealVM
  rw [h]

/- ### Lemmas about index.ts's get path -/

theorem getVMFromStorage_primary {s : Store} {id : String} {vm : VM}
    (h : s id = some vm) (now : String) :
    IndexTs.getVMFromStorage s id now = (some vm, s) := by
  unfold IndexTs.getVMFromStorage
  rw [h]

theorem getVMFromStorage_mock {s : Store} {id : String} (h1 : s id = none)
    (h2 : s (aliasKey id) = none) (now : String) :
    IndexTs.getVMFromStorage s id now
      = (some (mockVM id now), storeVM s (mockVM id now)) := by
  unfold IndexTs.getVMFromStorage
  rw [h1, h2]

theorem handleGetVM_primary {s : Store} {id : String} {vm : VM}
    (h : s id = some vm) (now : String) :
    IndexTs.handleGetVM s id now = ({ status := 200, body := .vmRecord vm }, s) := by
  simp [IndexTs.handleGetVM, getVMFromStorage_primary h]

/- ### Claim C3: the strategy selector -/

/-- C3 (counterexample): the claim describes the matching of `'e2-'` /
`'t3.'` as *leading* patterns, but the source uses `includes` (substring
containment): on `"m5.e2-large"` the code selects the cloud-managed
strategy (`google_cloud`) while the claim's rule order selects the edge
default — so the claim, as stated, is false at this input. -/
theorem C3_selector_counterexample :
    Part001.selectDeploymentStrategy "m5.e2-large" none = "google_cloud" ∧
    selectStrategyWordSpec "m5.e2-large" none = "cloudflare" ∧
    Part001.selectDeploymentStrategy "m5.e2-large" none
      ≠ selectStrategyWordSpec "m5.e2-large" none := by
  decide

/-- C3 (amended): the deployment-strategy selector is a total,
deterministic function of `(instanceType, serverId)` into the fixed set
{`google_cloud` (cloud-managed), `cloudflare` (edge)} with first-match rule
order, where the `'e2-'` / `'t3.'` patterns are matched by **substring
containment** (JS `includes`), not as leading patterns: containment of
`'e2-'` → cloud-managed; else containment of `'t3.'` → edge; else serverId
`default-google-cloud-server` → cloud-managed; else edge.  The four cited
examples hold. -/
theorem C3_selector_amended (it : String) (sid : Option String) :
    (Part001.selectDeploymentStrategy it sid = "google_cloud" ∨
     Part001.selectDeploymentStrategy it sid = "cloudflare") ∧
    (containsStr it "e2-" = true →
      Part001.selectDeploymentStrategy it sid = "google_cloud") ∧
    (containsStr it "e2-" = false → containsStr it "t3." = true →
      Part001.selectDeploymentStrategy it sid = "cloudflare") ∧
    (containsStr it "e2-" = false → containsStr it "t3." = false →
      sid = some "default-google-cloud-server" →
      Part001.selectDeploymentStrategy it sid = "google_cloud") ∧
    (containsStr it "e2-" = false → containsStr it "t3." = false →
      sid ≠ some "default-google-cloud-server" →
      Part001.selectDeploymentStrategy it sid = "cloudflare") ∧
    Part001.selectDeploymentStrategy "e2-standard-4" none = "google_cloud" ∧
    Part001.selectDeploymentStrategy "t3.medium" none = "cloudflare" ∧
    Part001.selectDeploymentStrategy "m5.large" (some "default-google-cloud-server")
      = "google_cloud" ∧
    Part001.selectDeploymentStrategy "m5.large" none = "cloudflare" := by
  refine ⟨?_, ?_, ?_, ?_, ?_, by decide, by decide, by decide, by decide⟩
  · unfold Part001.selectDeploymentStrategy
    split_ifs <;> simp
  · intro h1
    simp [Part001.selectDeploymentStrategy, h1]
  · intro h1 h2
    simp [Part001.selectDeploymentStrategy, h1, h2]
  · intro h1 h2 h3
    simp [Part001.selectDeploymentStrategy, h1, h2, h3]
  · intro h1 h2 h3
    simp [Part001.selectDeploymentStrategy, h1, h2, h3]

/-- C3 (witness): the amended theorem applied at a concrete input. -/
theorem C3_selector_amended_witness :
    containsStr "e2-standard-4" "e2-" = true ∧
    Part001.selectDeploymentStrategy "e2-standard-4" none = "google_cloud" :=
  ⟨by decide, (C3_selector_amended "e2-standard-4" none).2.1 (by decide)⟩

/- ### Claim C4: route specificity ordering -/

/-- C4: for `GET /vms/abc/novnc` the dispatcher of `src/src/index.ts`
checks the generic `GET /vms/{id}` route **first** and therefore routes the
request to the raw-JSON record handler, not to the NoVNC HTML handler; the
`part_000` dispatcher (whose comment reads "check BEFORE generic GET
/vms/:id") routes the same request to the NoVNC handler as the claim
requires.  This evaluates both dispatchers at the failing input. -/
theorem C4_route_ordering :
    IndexTs.route "GET" "/vms/abc/novnc" = Route.getVM "abc" ∧
    IndexTs.route "GET" "/vms/abc/novnc" ≠ Route.novnc "abc" ∧
    Part000.route "GET" "/vms/abc/novnc" = Route.novnc "abc" := by
  decide

/- ### Claim C2: the system-wide fallback rule -/

/-- Concrete record used by the C2 counterexample and witness: `t3.medium`
routes `index.ts`'s `createRealVM` to the Railway backend. -/
def c2VM : VM :=
  { id := "v1", name := "n", status := .initializing, createdAt := "t0",
    instanceType := some "t3.medium" }

/-- C2 (counterexample): in `index.ts`, with `RAILWAY_VM_SERVER_URL` set and
the Railway VM server answering non-2xx, `createRailwayVM` throws and
`createRealVM` lands the record in `error` — the backend error did **not**
degrade to the edge backend's synthesized descriptor (the containerId was
never populated), and the edge path itself (total in this model) did not
throw, refuting the claim at this input. -/
theorem C2_fallback_counterexample :
    ((IndexTs.createRealVM c2VM { railwayBase := some "https://r" }
        { railwayFetch := .httpError 500 "boom" } "t1" Store.empty).1).status
      = VMStatus.error ∧
    ((IndexTs.createRealVM c2VM { railwayBase := some "https://r" }
        { railwayFetch := .httpError 500 "boom" } "t1" Store.empty).1).error
      = some "Railway VM server create failed: 500 boom" ∧
    ((IndexTs.createRealVM c2VM { railwayBase := some "https://r" }
        { railwayFetch := .httpError 500 "boom" } "t1" Store.empty).1).containerId
      = none := by
  decide

/-- C2 (amended): the degradation rule holds for the cloud-managed path of
`part_001` — its `createRealVM` (strategies `cloudflare`/`google_cloud`
only) always ends `ready`, since missing credentials fall back to the edge
descriptor and a failed or non-2xx Docker-service call falls back to the
synthesized simulated descriptor — but it does **not** hold system-wide:
`index.ts`'s Railway backend propagates a non-2xx from the configured
Railway VM server, landing the record in `error` with the caught message
recorded. -/
theorem C2_fallback_amended :
    (∀ (vm : VM) (env : Part001.GCPEnv) (df : FetchOutcome ContainerData)
        (now : String) (s : Store),
      ((Part001.createRealVM vm env df now s).1).status = VMStatus.ready) ∧
    (∀ (vm : VM) (b : String) (st : Nat) (txt now : String) (s : Store),
      containsStr (vm.instanceType.getD "t3.medium") "e2-" = false →
      containsStr (vm.instanceType.getD "t3.medium") "t3." = true →
      b ≠ "" →
      ((IndexTs.createRealVM vm { railwayBase := some b }
          { railwayFetch := .httpError st txt } now s).1).status = VMStatus.error ∧
      ((IndexTs.createRealVM vm { railwayBase := some b }
          { railwayFetch := .httpError st txt } now s).1).error
        = some ("Railway VM server create failed: " ++ toString st ++ " " ++ txt)) := by
  constructor
  · intro vm env df now s
    rfl
  · intro vm b st txt now s h1 h2 h3
    have hs : IndexTs.selectDeploymentStrategy (vm.instanceType.getD "t3.medium")
        = "railway" := by
      simp [IndexTs.selectDeploymentStrategy, h1, h2]
    have hb : IndexTs.chooseBackend vm { railwayBase := some b }
        { railwayFetch := .httpError st txt }
        = .error ("Railway VM server create failed: " ++ toString st ++ " " ++ txt) := by
      simp [IndexTs.chooseBackend, hs, IndexTs.createRailwayVM, falsyOpt, h3]
    rw [IndexTs.createRealVM, hb]
    exact ⟨rfl, rfl⟩

/-- C2 (witness): the amended theorem applied at concrete inputs — the
`part_001` cloud-managed path ends `ready` even when the Docker service is
down, while the `index.ts` Railway path ends `error` on a non-2xx. -/
theorem C2_fallback_amended_witness :
    ((Part001.createRealVM c2VM {} (.networkError "down") "t" Store.empty).1).status
      = VMStatus.ready ∧
    ((IndexTs.createRealVM c2VM { railwayBase := some "https://r" }
        { railwayFetch := .httpError 500 "boom" } "t1" Store.empty).1).status
      = VMStatus.error :=
  ⟨C2_fallback_amended.1 c2VM {} (.networkError "down") "t" Store.empty,
   (C2_fallback_amended.2 c2VM "https://r" 500 "boom" "t1" Store.empty
      (by decide) (by decide) (by decide)).1⟩

/- ### Claim C5: the store alias invariant -/

/-- The alias invariant of the claim, for ids that are not themselves alias
keys: the primary entry and the alias entry resolve to the same record or
are both absent. -/
def aliasInvariant (s : Store) : Prop :=
  ∀ j, goodId j → s j = s (aliasKey j)

/-- Concrete D1 row used by the C5 counterexample. -/
def c5DbVm : VM := { id := "a", name := "db vm", status := .ready, createdAt := "t0" }

/-- C5 (counterexample): the D1-cache branch of `part_001`'s
`getVMFromStorage` writes `activeVMs.set(vmId, vm)` — the primary key only.
Starting from the empty in-memory store, a get that hits the database
leaves the primary entry populated and the alias entry absent, violating
the claimed invariant after a get-with-caching operation. -/
theorem C5_alias_counterexample :
    (Part001.getVMFromStorage Store.empty "a" (DbOutcome.row c5DbVm) "t1").2 "a"
      = some c5DbVm ∧
    (Part001.getVMFromStorage Store.empty "a" (DbOutcome.row c5DbVm) "t1").2 (aliasKey "a")
      = none ∧
    (Part001.getVMFromStorage Store.empty "a" (DbOutcome.row c5DbVm) "t1").2 "a"
      ≠ (Part001.getVMFromStorage Store.empty "a" (DbOutcome.row c5DbVm) "t1").2 (aliasKey "a") := by
  decide

/-- C5 (amended): `put` writes both the primary and the alias key with the
same record, and the delete path removes both keys; these two operations
preserve the alias invariant for all ids that are not themselves alias keys
(the prefixed keys written by `put` make the unrestricted invariant
unsatisfiable).  The D1-cache branch of get, which writes only the primary
key, is excluded — it can break the invariant, as the counterexample
shows. -/
theorem C5_alias_amended (s : Store) (vm : VM) (idd : String)
    (hinv : aliasInvariant s) (hgoodv : goodId vm.id) (hgoodd : goodId idd) :
    (storeVM s vm) vm.id = some vm ∧
    (storeVM s vm) (aliasKey vm.id) = some vm ∧
    ((s.del idd).del (aliasKey idd)) idd = none ∧
    ((s.del idd).del (aliasKey idd)) (aliasKey idd) = none ∧
    aliasInvariant (storeVM s vm) ∧
    aliasInvariant ((s.del idd).del (aliasKey idd)) := by
  refine ⟨storeVM_self s vm, storeVM_at_alias s vm, del2_self s idd,
    del2_at_alias s idd, ?_, ?_⟩
  · intro j hj
    by_cases hje : j = vm.id
    · subst hje
      rw [storeVM_self, storeVM_at_alias]
    · have h1 : j ≠ aliasKey vm.id := hj vm.id
      have h2 : aliasKey j ≠ vm.id := fun he => hgoodv j he.symm
      have h3 : aliasKey j ≠ aliasKey vm.id := fun he => hje (aliasKey_inj he)
      rw [storeVM_other s vm hje h1, storeVM_other s vm h2 h3]
      exact hinv j hj
  · intro j hj
    by_cases hje : j = idd
    · subst hje
      rw [del2_self, del2_at_alias]
    · have h1 : j ≠ aliasKey idd := hj idd
      have h2 : aliasKey j ≠ idd := fun he => hgoodd j he.symm
      have h3 : aliasKey j ≠ aliasKey idd := fun he => hje (aliasKey_inj he)
      rw [del2_other s idd hje h1, del2_other s idd h2 h3]
      exact hinv j hj

/-- Concrete record used by the C5 witness. -/
def c5PutVM : VM := { id := "w", name := "n", status := .ready, createdAt := "t0" }

/-- C5 (witness): the amended theorem applied to the empty store and a
concrete record. -/
theorem C5_alias_amended_witness :
    (storeVM Store.empty c5PutVM) c5PutVM.id = some c5PutVM ∧
    aliasInvariant (storeVM Store.empty c5PutVM) := by
  have h := C5_alias_amended Store.empty c5PutVM "z" (fun _ _ => rfl)
    (goodId_of_short (by decide)) (goodId_of_short (by decide))
  exact ⟨h.1, h.2.2.2.2.1⟩

/- ### Claim C6: delete then get -/

/-- Concrete record used by the C6 counterexample and witness. -/
def c6VM : VM := { id := "x", name := "n", status := .ready, createdAt := "t0" }

/-- The store left behind after creating and then deleting `c6VM`. -/
def c6Deleted : Store := (IndexTs.handleDeleteVM (storeVM Store.empty c6VM) "x").2

/-- C6 (counterexample): after a successful `DELETE /vms/x` both map entries
are gone, but `GET /vms/x` does **not** return 404 — `getVMFromStorage`
synthesizes a mock `ready` record and returns 200, and the get via the
alias key behaves the same; the id becomes observable again, refuting the
claim. -/
theorem C6_delete_get_counterexample :
    (IndexTs.handleDeleteVM (storeVM Store.empty c6VM) "x").1.status = 200 ∧
    c6Deleted "x" = none ∧
    c6Deleted (aliasKey "x") = none ∧
    (IndexTs.handleGetVM c6Deleted "x" "t2").1.status = 200 ∧
    (IndexTs.handleGetVM c6Deleted "x" "t2").1
      ≠ { status := 404, body := RespBody.notFound } ∧
    (IndexTs.handleGetVM c6Deleted "working-vm-x" "t2").1.status = 200 := by
  decide

/-- C6 (amended): a successful delete removes both the primary and the
alias entry and a delete of an unknown id returns 404, but `GET /vms/{id}`
on an id absent under both keys never returns 404: it synthesizes the mock
`ready` record, stores it under both keys, and returns 200 — the deleted
record itself does not come back, a fresh mock record appears instead. -/
theorem C6_delete_get_amended (s : Store) (id now : String) :
    (∀ vm, lookupVM s id = some vm →
      (IndexTs.handleDeleteVM s id).1 = { status := 200, body := .deleted id } ∧
      (IndexTs.handleDeleteVM s id).2 id = none ∧
      (IndexTs.handleDeleteVM s id).2 (aliasKey id) = none) ∧
    (lookupVM s id = none →
      IndexTs.handleDeleteVM s id = ({ status := 404, body := .notFound }, s)) ∧
    (s id = none → s (aliasKey id) = none →
      IndexTs.handleGetVM s id now
        = ({ status := 200, body := .vmRecord (mockVM id now) },
           storeVM s (mockVM id now))) := by
  refine ⟨?_, ?_, ?_⟩
  · intro vm h
    unfold IndexTs.handleDeleteVM
    rw [h]
    exact ⟨rfl, del2_self s id, del2_at_alias s id⟩
  · intro h
    unfold IndexTs.handleDeleteVM
    rw [h]
  · intro h1 h2
    unfold IndexTs.handleGetVM
    rw [getVMFromStorage_mock h1 h2]

/-- C6 (witness): the amended theorem applied at concrete inputs. -/
theorem C6_delete_get_amended_witness :
    ((IndexTs.handleDeleteVM (storeVM Store.empty c6VM) "x").2) "x" = none ∧
    (IndexTs.handleGetVM Store.empty "y" "t").1
      = { status := 200, body := RespBody.vmRecord (mockVM "y" "t") } := by
  constructor
  · exact (((C6_delete_get_amended (storeVM Store.empty c6VM) "x" "t").1) c6VM
      (by decide)).2.1
  · have h := (C6_delete_get_amended Store.empty "y" "t").2.2 rfl rfl
    rw [h]

/- ### Claim C1: create settles synchronously and always acknowledges -/

/-- C1: for every create request with a non-empty name — whatever the
environment and however the provisioning oracle behaves, including a
throwing Railway backend — `handleCreateVM` answers 201 with the "started"
body for the generated id, and an immediate get on that id observes a
record whose status is `ready` or `error`, never `initializing`. -/
theorem C1_create_settles (body : CreateRequest) (genId now now2 : String)
    (env : IndexTs.CreateEnv) (oracle : IndexTs.CreateOracle) (s : Store)
    (h : body.name ≠ "") :
    ((IndexTs.handleCreateVM body genId now env oracle s).1).status = 201 ∧
    (∃ st, ((IndexTs.handleCreateVM body genId now env oracle s).1).body
      = RespBody.createStarted genId st) ∧
    ∃ vm : VM,
      (IndexTs.handleGetVM (IndexTs.handleCreateVM body genId now env oracle s).2
          genId now2).1
        = { status := 200, body := .vmRecord vm } ∧
      (vm.status = VMStatus.ready ∨ vm.status = VMStatus.error) := by
  have hunf : IndexTs.handleCreateVM body genId now env oracle s
      = ({ status := 201,
           body := RespBody.createStarted
             ((IndexTs.createRealVM (IndexTs.initialVM body genId now) env oracle now s).1).id
             ((IndexTs.createRealVM (IndexTs.initialVM body genId now) env oracle now s).1).status },
         storeVM (IndexTs.createRealVM (IndexTs.initialVM body genId now) env oracle now s).2
                 (IndexTs.createRealVM (IndexTs.initialVM body genId now) env oracle now s).1) := by
    unfold IndexTs.handleCreateVM
    rw [if_neg h]
  have hid : ((IndexTs.createRealVM (IndexTs.initialVM body genId now) env oracle now s).1).id
      = genId :=
    (createRealVM_id (IndexTs.initialVM body genId now) env oracle now s).trans rfl
  rw [hunf, hid]
  have hprim : (storeVM (IndexTs.createRealVM (IndexTs.initialVM body genId now) env oracle now s).2
        (IndexTs.createRealVM (IndexTs.initialVM body genId now) env oracle now s).1) genId
      = some (IndexTs.createRealVM (IndexTs.initialVM body genId now) env oracle now s).1 := by
    have h0 := storeVM_self
      (IndexTs.createRealVM (IndexTs.initialVM body genId now) env oracle now s).2
      (IndexTs.createRealVM (IndexTs.initialVM body genId now) env oracle now s).1
    rwa [hid] at h0
  exact ⟨rfl, ⟨_, rfl⟩,
    ⟨(IndexTs.createRealVM (IndexTs.initialVM body genId now) env oracle now s).1,
     congrArg Prod.fst (handleGetVM_primary hprim now2),
     createRealVM_status (IndexTs.initialVM body genId now) env oracle now s⟩⟩

/-- C1 (witness): the theorem applied at a concrete request whose name is
non-empty, with a provisioning oracle that throws. -/
theorem C1_create_settles_witness :
    ({ name := "demo" } : CreateRequest).name ≠ "" ∧
    ((IndexTs.handleCreateVM { name := "demo" } "g1" "t0"
        { railwayBase := some "https://r" } { railwayFetch := .networkError "down" }
        Store.empty).1).status = 201 :=
  ⟨by decide,
   (C1_create_settles { name := "demo" } "g1" "t0" "t1"
      { railwayBase := some "https://r" } { railwayFetch := .networkError "down" }
      Store.empty (by decide)).1⟩

/- ### Claim C7: the action proxy's fixed action table -/

/-- C7: with a record reachable under the id and a non-empty origin agent
URL, each of the five enumerated actions issues exactly one upstream call
against the trailing-slash-stripped base concatenated with its fixed
suffix (`browser/navigate→/browser/navigate`, `restart→/browser/restart`,
`status→/health`, `execute→/run`, `screenshot→/run`), and every other
action is answered 400 with no upstream call. -/
theorem C7_proxy_action_table (s : Store) (id u : String) (vm : VM)
    (req : ProxyRequest) (ur : UpstreamResponse)
    (hlk : lookupVM s id = some vm) (hu : vm.originAgentUrl = some u)
    (hne : u ≠ "") :
    (IndexTs.handleAgentProxy s id "browser/navigate" req ur).2
      = [{ url := stripTrailingSlash u ++ "/browser/navigate", method := req.method,
           bodyText := if req.method = "GET" ∨ req.method = "HEAD" then none
                       else some req.bodyText }] ∧
    (IndexTs.handleAgentProxy s id "restart" req ur).2
      = [{ url := stripTrailingSlash u ++ "/browser/restart", method := req.method,
           bodyText := if req.method = "GET" ∨ req.method = "HEAD" then none
                       else some req.bodyText }] ∧
    (IndexTs.handleAgentProxy s id "status" req ur).2
      = [{ url := stripTrailingSlash u ++ "/health", method := req.method,
           bodyText := if req.method = "GET" ∨ req.method = "HEAD" then none
                       else some req.bodyText }] ∧
    (IndexTs.handleAgentProxy s id "execute" req ur).2
      = [{ url := stripTrailingSlash u ++ "/run", method := req.method,
           bodyText := if req.method = "GET" ∨ req.method = "HEAD" then none
                       else some req.bodyText }] ∧
    (IndexTs.handleAgentProxy s id "screenshot" req ur).2
      = [{ url := stripTrailingSlash u ++ "/run", method := req.method,
           bodyText := if req.method = "GET" ∨ req.method = "HEAD" then none
                       else some req.bodyText }] ∧
    (∀ action, action ≠ "browser/navigate" → action ≠ "restart" →
      action ≠ "status" → action ≠ "execute" → action ≠ "screenshot" →
      IndexTs.handleAgentProxy s id action req ur
        = ({ status := 400, body := .unsupportedAction }, [])) := by
  have hf : falsyOpt vm.originAgentUrl = false := by
    rw [hu]
    simp [falsyOpt, hne]
  have hg : vm.originAgentUrl.getD "" = u := by rw [hu]; rfl
  refine ⟨?_, ?_, ?_, ?_, ?_, ?_⟩
  · have hap : IndexTs.agentActionPath "browser/navigate" = some "/browser/navigate" := rfl
    simp [IndexTs.handleAgentProxy, hlk, hf, hg, hap]
  · have hap : IndexTs.agentActionPath "restart" = some "/browser/restart" := rfl
    simp [IndexTs.handleAgentProxy, hlk, hf, hg, hap]
  · have hap : IndexTs.agentActionPath "status" = some "/health" := rfl
    simp [IndexTs.handleAgentProxy, hlk, hf, hg, hap]
  · have hap : IndexTs.agentActionPath "execute" = some "/run" := rfl
    simp [IndexTs.handleAgentProxy, hlk, hf, hg, hap]
  · have hap : IndexTs.agentActionPath "screenshot" = some "/run" := rfl
    simp [IndexTs.handleAgentProxy, hlk, hf, hg, hap]
  · intro action h1 h2 h3 h4 h5
    have hap : IndexTs.agentActionPath action = none := by
      simp [IndexTs.agentActionPath, h1, h2, h3, h4, h5]
    simp [IndexTs.handleAgentProxy, hlk, hf, hap]

/-- Concrete record used by the C7 witness: reachable under `"p"`, origin
agent URL `"http://u/"`. -/
def c7VM : VM :=
  { id := "p", name := "n", status := .ready, createdAt := "t0",
    originAgentUrl := some "http://u/" }

/-- C7 (witness): the theorem applied at a concrete store — action `status`
calls `http://u/health`, and the unknown action `reboot` is rejected. -/
theorem C7_proxy_action_table_witness :
    (IndexTs.handleAgentProxy (storeVM Store.empty c7VM) "p" "status"
        { method := "GET", bodyText := "" } { status := 200 }).2
      = [{ url := "http://u" ++ "/health", method := "GET", bodyText := none }] ∧
    IndexTs.handleAgentProxy (storeVM Store.empty c7VM) "p" "reboot"
        { method := "GET", bodyText := "" } { status := 200 }
      = ({ status := 400, body := .unsupportedAction }, []) := by
  have h := C7_proxy_action_table (storeVM Store.empty c7VM) "p" "http://u/" c7VM
    { method := "GET", bodyText := "" } { status := 200 }
    (by decide) rfl (by decide)
  constructor
  · have h3 := h.2.2.1
    rw [h3]
    decide
  · exact h.2.2.2.2.2 "reboot" (by decide) (by decide) (by decide) (by decide) (by decide)

/- ### Claim C8: proxy with no upstream agent URL -/

/-- C8: for a record reachable under the id whose `originAgentUrl` is
absent or empty, the proxy answers 400 "No upstream agent URL" — not 404 —
for every action, and makes no upstream call. -/
theorem C8_proxy_no_upstream (s : Store) (id action : String) (vm : VM)
    (req : ProxyRequest) (ur : UpstreamResponse)
    (hlk : lookupVM s id = some vm)
    (hu : vm.originAgentUrl = none ∨ vm.originAgentUrl = some "") :
    IndexTs.handleAgentProxy s id action req ur
      = ({ status := 400, body := .noUpstream }, []) := by
  have hf : falsyOpt vm.originAgentUrl = true := by
    rcases hu with h | h <;> simp [falsyOpt, h]
  simp [IndexTs.handleAgentProxy, hlk, hf]

/-- Concrete record used by the C8 witness: no origin agent URL. -/
def c8VM : VM := { id := "p8", name := "n", status := .ready, createdAt := "t0" }

/-- C8 (witness): the theorem applied at a concrete store. -/
theorem C8_proxy_no_upstream_witness :
    IndexTs.handleAgentProxy (storeVM Store.empty c8VM) "p8" "status"
        { method := "GET", bodyText := "" } { status := 200 }
      = ({ status := 400, body := .noUpstream }, []) :=
  C8_proxy_no_upstream (storeVM Store.empty c8VM) "p8" "status" c8VM
    { method := "GET", bodyText := "" } { status := 200 } (by decide) (Or.inl rfl)

/- ### Claim C9: start / restart -/

/-- C9: start and restart return 404 when the id is unknown under both the
primary and the alias key; otherwise they set the status to `ready`
(start) or `initializing` (restart), stamp `lastActivity`, persist the
record under both keys, answer a success body, attempt the best-effort
upstream restart signal exactly when an origin agent URL is set, and their
outcome never depends on that upstream call's result (its failure is
swallowed). -/
theorem C9_start_restart (s : Store) (id now : String) (r r' : Except String Unit) :
    IndexTs.handleStartVM s id now r = IndexTs.handleStartVM s id now r' ∧
    IndexTs.handleRestartVM s id now r = IndexTs.handleRestartVM s id now r' ∧
    (lookupVM s id = none →
      IndexTs.handleStartVM s id now r = ({ status := 404, body := .notFound }, s, []) ∧
      IndexTs.handleRestartVM s id now r = ({ status := 404, body := .notFound }, s, [])) ∧
    (∀ vm, lookupVM s id = some vm →
      ((IndexTs.handleStartVM s id now r).1
          = { status := 200, body := .success ("VM " ++ id ++ " started.") } ∧
        ((IndexTs.handleStartVM s id now r).2.1) vm.id
          = some { vm with status := VMStatus.ready, lastActivity := some now } ∧
        ((IndexTs.handleStartVM s id now r).2.1) (aliasKey vm.id)
          = some { vm with status := VMStatus.ready, lastActivity := some now } ∧
        (falsyOpt vm.originAgentUrl = false →
          (IndexTs.handleStartVM s id now r).2.2
            = [{ url := stripTrailingSlash (vm.originAgentUrl.getD "") ++ "/browser/restart",
                 method := "POST", bodyText := none }]) ∧
        (falsyOpt vm.originAgentUrl = true →
          (IndexTs.handleStartVM s id now r).2.2 = [])) ∧
      ((IndexTs.handleRestartVM s id now r).1
          = { status := 200, body := .success ("VM " ++ id ++ " restart initiated.") } ∧
        ((IndexTs.handleRestartVM s id now r).2.1) vm.id
          = some { vm with status := VMStatus.initializing, lastActivity := some now } ∧
        ((IndexTs.handleRestartVM s id now r).2.1) (aliasKey vm.id)
          = some { vm with status := VMStatus.initializing, lastActivity := some now } ∧
        (falsyOpt vm.originAgentUrl = false →
          (IndexTs.handleRestartVM s id now r).2.2
            = [{ url := stripTrailingSlash (vm.originAgentUrl.getD "") ++ "/browser/restart",
                 method := "POST", bodyText := none }]) ∧
        (falsyOpt vm.originAgentUrl = true →
          (IndexTs.handleRestartVM s id now r).2.2 = []))) := by
  refine ⟨rfl, rfl, ?_, ?_⟩
  · intro h
    unfold IndexTs.handleStartVM IndexTs.handleRestartVM
    rw [h]
    exact ⟨rfl, rfl⟩
  · intro vm h
    unfold IndexTs.handleStartVM IndexTs.handleRestartVM
    rw [h]
    refine
      ⟨⟨rfl,
        storeVM_self s { vm with status := VMStatus.ready, lastActivity := some now },
        storeVM_at_alias s { vm with status := VMStatus.ready, lastActivity := some now },
        ?_, ?_⟩,
       ⟨rfl,
        storeVM_self s { vm with status := VMStatus.initializing, lastActivity := some now },
        storeVM_at_alias s { vm with status := VMStatus.initializing, lastActivity := some now },
        ?_, ?_⟩⟩ <;>
      intro hf <;> simp [hf]

/-- Concrete record used by the C9 witness: origin agent URL set. -/
def c9VM : VM :=
  { id := "q", name := "n", status := .stopped, createdAt := "t0",
    originAgentUrl := some "http://u/" }

/-- C9 (witness): the theorem applied at concrete inputs — 404 on the empty
store, success plus a single restart signal on a store holding `c9VM`. -/
theorem C9_start_restart_witness :
    IndexTs.handleStartVM Store.empty "q" "t1" (.error "down")
      = ({ status := 404, body := .notFound }, Store.empty, []) ∧
    (IndexTs.handleStartVM (storeVM Store.empty c9VM) "q" "t1" (.error "down")).1
      = { status := 200, body := .success ("VM " ++ "q" ++ " started.") } ∧
    (IndexTs.handleStartVM (storeVM Store.empty c9VM) "q" "t1" (.error "down")).2.2
      = [{ url := stripTrailingSlash ("http://u/") ++ "/browser/restart",
           method := "POST", bodyText := none }] := by
  refine ⟨((C9_start_restart Store.empty "q" "t1" (.error "down") (.ok ())).2.2.1 rfl).1,
    ?_, ?_⟩
  · exact (((C9_start_restart (storeVM Store.empty c9VM) "q" "t1" (.error "down")
      (.ok ())).2.2.2 c9VM (by decide)).1).1
  · exact ((((C9_start_restart (storeVM Store.empty c9VM) "q" "t1" (.error "down")
      (.ok ())).2.2.2 c9VM (by decide)).1).2.2.2.1) (by decide)

/- ### Claim C10: ready records always carry an upstream agent URL -/

/-- C10: whenever `index.ts`'s `createRealVM` ends with status `ready`, the
merged record's `originAgentUrl` is a non-empty string (the backend's
reported origin URL, or the backend's public agent URL, which every backend
populates), so for such a record the Action Proxy's 400 "No upstream agent
URL" branch is unreachable. -/
theorem C10_ready_has_upstream (vm : VM) (env : IndexTs.CreateEnv)
    (oracle : IndexTs.CreateOracle) (now : String) (s : Store)
    (h : ((IndexTs.createRealVM vm env oracle now s).1).status = VMStatus.ready) :
    (∃ u, ((IndexTs.createRealVM vm env oracle now s).1).originAgentUrl = some u ∧
      u ≠ "") ∧
    (∀ (s2 : Store) (q action : String) (req : ProxyRequest) (ur : UpstreamResponse),
      lookupVM s2 q = some (IndexTs.createRealVM vm env oracle now s).1 →
      ((IndexTs.handleAgentProxy s2 q action req ur).1).body ≠ RespBody.noUpstream) := by
  rcases hb : IndexTs.chooseBackend vm env oracle with e | r
  · exact absurd (h.symm.trans (createRealVM_error_status hb now s)) (by decide)
  · have horig := createRealVM_ok_origin hb now s
    have hne : orElseStr r.originAgentUrl r.agentUrl ≠ "" := by
      have ha := chooseBackend_agentUrl hb
      cases hcase : r.originAgentUrl with
      | none =>
        simp only [orElseStr]
        rw [ha]
        exact vmAgentUrl_ne vm.id
      | some v =>
        simp only [orElseStr]
        split
        · rw [ha]
          exact vmAgentUrl_ne vm.id
        · simp_all
    refine ⟨⟨orElseStr r.originAgentUrl r.agentUrl, horig, hne⟩, ?_⟩
    intro s2 q action req ur hlk
    have hf : falsyOpt ((IndexTs.createRealVM vm env oracle now s).1).originAgentUrl
        = false := by
      rw [horig]
      simp [falsyOpt, hne]
    unfold IndexTs.handleAgentProxy
    rw [hlk]
    simp only [hf]
    cases IndexTs.agentActionPath action <;> simp

/-- Concrete record used by the C10 witness: instance type `m5.large`
routes to the Cloudflare (edge) backend, which always succeeds. -/
def c10VM : VM :=
  { id := "v10", name := "n", status := .initializing, createdAt := "t0",
    instanceType := some "m5.large" }

/-- C10 (witness): the theorem applied at a concrete input whose
provisioning ends `ready`. -/
theorem C10_ready_has_upstream_witness :
    ((IndexTs.createRealVM c10VM {} {} "t1" Store.empty).1).status = VMStatus.ready ∧
    (∃ u, ((IndexTs.createRealVM c10VM {} {} "t1" Store.empty).1).originAgentUrl
      = some u ∧ u ≠ "") :=
  ⟨by decide, (C10_ready_has_upstream c10VM {} {} "t1" Store.empty (by decide)).1⟩
